import Mathlib

/-!
Shallow embedding of `src/main.py` (a Slack MCP server): the tool registry,
the Nango credential fetch, the `SlackClient` request builders and the
`call_tool` dispatcher, together with theorems checking the specification
claims about them.

Modelling conventions:
* JSON values are the inductive `Json`; machine integers do not occur
  (Python ints are unbounded, modelled by `Int`).
* Python truthiness (`if not x:`) is `Json.truthy`.
* `dict.get` on a non-dict raises `AttributeError`; this is modelled by
  `Except String` results (`pyGet`, `pyGetD`).
* I/O is modelled by an explicit environment `Env`: `brokerResult` is the
  outcome of the single credential-broker HTTP GET (`Except.error` covers a
  connection failure, `raise_for_status` on a non-2xx status, and a JSON
  decode failure; `Except.ok j` is the decoded 2xx body), and `slackRespond`
  gives the outcome of each Slack HTTP request.  Every outbound HTTP request
  is recorded in a trace of `OutCall`s.
* Diagnostic `print(..., file=sys.stderr)` lines are not modelled.
-/

namespace SlackMcp

/-- JSON values, as decoded by `response.json()` in the source. -/
inductive Json where
  | null : Json
  | bool : Bool → Json
  | num : Int → Json
  | str : String → Json
  | arr : List Json → Json
  | obj : List (String × Json) → Json
deriving Repr, BEq

/-- Python truthiness of a JSON value (`if x:` / `if not x:`). -/
def Json.truthy : Json → Bool
  | .null => false
  | .bool b => b
  | .num n => n != 0
  | .str s => s != ""
  | .arr xs => !xs.isEmpty
  | .obj fs => !fs.isEmpty

/-- Association-list lookup, modelling Python dict access (dicts preserve
insertion order and have unique keys). -/
def alistGet (fs : List (String × Json)) (k : String) : Option Json :=
  match fs with
  | [] => none
  | (k2, v) :: rest => if k2 = k then some v else alistGet rest k

/-- Lookup in a string-valued parameter list (used to inspect query params). -/
def alistGetS (ps : List (String × String)) (k : String) : Option String :=
  match ps with
  | [] => none
  | (k2, v) :: rest => if k2 = k then some v else alistGetS rest k

/-- Python `d.get(k)` where `d` may be any JSON value: returns `None` (here
`Json.null`) when the key is absent, raises `AttributeError` when the receiver
is not a dict. -/
def pyGet (j : Json) (k : String) : Except String Json :=
  match j with
  | .obj fs => .ok ((alistGet fs k).getD .null)
  | _ => .error "AttributeError"

/-- Python `d.get(k, dflt)` with the same `AttributeError` behaviour. -/
def pyGetD (j : Json) (k : String) (dflt : Json) : Except String Json :=
  match j with
  | .obj fs => .ok ((alistGet fs k).getD dflt)
  | _ => .error "AttributeError"

/-- Python `str()` on the scalar JSON values that the source ever renders into
query parameters.  Containers are rendered by Python via `repr`; no request in
the source puts a container value into a query string, so a placeholder is
used for those cases. -/
def pyStr : Json → String
  | .null => "None"
  | .bool true => "True"
  | .bool false => "False"
  | .num n => toString n
  | .str s => s
  | .arr _ => "<list repr not modelled>"
  | .obj _ => "<dict repr not modelled>"

/-- Python `min(v, 200)` as applied to a loosely-typed `limit` argument:
for a number it is the numeric minimum, for a bool it returns the bool itself
(Python bools compare as 0/1 and `min` returns the original object), and for
any other type Python raises `TypeError`. -/
def pyMin200 (v : Json) : Except String Json :=
  match v with
  | .num n => .ok (.num (min n 200))
  | .bool b => .ok (.bool b)
  | _ => .error "TypeError: unorderable types in min"

/-- Escaping of a character inside a JSON string per Python `json.dumps`
(ASCII cases used by the source). -/
def jsonEscapeChar (c : Char) : String :=
  if c = '"' then "\\\""
  else if c = '\\' then "\\\\"
  else if c = '\n' then "\\n"
  else if c = '\t' then "\\t"
  else if c = '\r' then "\\r"
  else String.singleton c

def jsonEscape (s : String) : String :=
  String.join (s.data.map jsonEscapeChar)

def joinComma : List String → String
  | [] => ""
  | [x] => x
  | x :: rest => x ++ ", " ++ joinComma rest

mutual
/-- Python `json.dumps` with its default separators (`", "` and `": "`),
preserving dict insertion order. -/
def Json.dumps : Json → String
  | .null => "null"
  | .bool true => "true"
  | .bool false => "false"
  | .num n => toString n
  | .str s => "\"" ++ jsonEscape s ++ "\""
  | .arr xs => "[" ++ joinComma (dumpsList xs) ++ "]"
  | .obj fs => "\x7b" ++ joinComma (dumpsFields fs) ++ "\x7d"

def dumpsList : List Json → List String
  | [] => []
  | x :: rest => Json.dumps x :: dumpsList rest

def dumpsFields : List (String × Json) → List String
  | [] => []
  | (k, v) :: rest => ("\"" ++ jsonEscape k ++ "\": " ++ Json.dumps v) :: dumpsFields rest
end

/-- `mcp.types.TextContent` as used by the source (always `type="text"`). -/
structure TextContent where
  type : String
  text : String
deriving Repr, DecidableEq

def mkText (s : String) : TextContent := ⟨"text", s⟩

/-- The uniform failure envelope: `json.dumps({"error": str(error)})`. -/
def errorEnvelope (msg : String) : TextContent :=
  mkText (Json.dumps (.obj [("error", .str msg)]))

/-- One HTTP request issued against the Slack API: endpoint, method, query
parameters (GET) or JSON body (POST), and the client identity (the raw
`bot_token` and `team_id` values the `SlackClient` was constructed with). -/
structure SlackCall where
  endpoint : String
  isPost : Bool
  qparams : List (String × String)
  jbody : List (String × Json)
  token : Json
  team : Json
deriving Repr, BEq

/-- `SlackClient.__init__`: stores the bearer token and team id. -/
structure SlackClient where
  bot_token : Json
  team_id : Json

/-- `SlackClient.get_channels`: query `conversations.list` with fixed
`types=public_channel`, `exclude_archived=true`, the limit clamped by
`min(limit, 200)` and stringified, the team id, and the cursor when truthy. -/
def SlackClient.get_channels (c : SlackClient) (limit : Json) (cursor : Json) :
    Except String SlackCall := do
  let m ← pyMin200 limit
  let base := [("types", "public_channel"), ("exclude_archived", "true"),
               ("limit", pyStr m), ("team_id", pyStr c.team_id)]
  let ps := if cursor.truthy then base ++ [("cursor", pyStr cursor)] else base
  pure ⟨"conversations.list", false, ps, [], c.bot_token, c.team_id⟩

/-- `SlackClient.get_conversation_info`: the outbound request part. -/
def SlackClient.conv_info_req (c : SlackClient) (channel_id : Json) : SlackCall :=
  ⟨"conversations.info", false, [("channel", pyStr channel_id)], [], c.bot_token, c.team_id⟩

/-- `SlackClient.get_conversation_info`: the post-processing of the decoded
response `data`:
`if data.get("ok") and data.get("channel") and not data["channel"].get("is_archived"):
return data["channel"]` — otherwise the method falls through and returns
`None`.  An `AttributeError` (`.get` on a non-dict) propagates as an
exception. -/
def conv_info_result (data : Json) : Except String (Option Json) :=
  match data with
  | .obj dfs =>
    if ((alistGet dfs "ok").getD .null).truthy then
      if ((alistGet dfs "channel").getD .null).truthy then
        match (alistGet dfs "channel").getD .null with
        | .obj cfs =>
          if ((alistGet cfs "is_archived").getD .null).truthy then .ok none
          else .ok (some (.obj cfs))
        | _ => .error "AttributeError"
      else .ok none
    else .ok none
  | _ => .error "AttributeError"

/-- `SlackClient.post_message`: POST `chat.postMessage` with channel and text. -/
def SlackClient.post_message (c : SlackClient) (channel_id text : Json) : SlackCall :=
  ⟨"chat.postMessage", true, [], [("channel", channel_id), ("text", text)],
   c.bot_token, c.team_id⟩

/-- `SlackClient.post_reply`: POST `chat.postMessage` with channel, thread_ts
and text. -/
def SlackClient.post_reply (c : SlackClient) (channel_id thread_ts text : Json) : SlackCall :=
  ⟨"chat.postMessage", true, [],
   [("channel", channel_id), ("thread_ts", thread_ts), ("text", text)],
   c.bot_token, c.team_id⟩

/-- `SlackClient.add_reaction`: POST `reactions.add`. -/
def SlackClient.add_reaction (c : SlackClient) (channel_id timestamp reaction : Json) : SlackCall :=
  ⟨"reactions.add", true, [],
   [("channel", channel_id), ("timestamp", timestamp), ("name", reaction)],
   c.bot_token, c.team_id⟩

/-- `SlackClient.get_channel_history`: GET `conversations.history`; the limit
is stringified with no clamp. -/
def SlackClient.get_channel_history (c : SlackClient) (channel_id limit : Json) : SlackCall :=
  ⟨"conversations.history", false,
   [("channel", pyStr channel_id), ("limit", pyStr limit)], [],
   c.bot_token, c.team_id⟩

/-- `SlackClient.get_thread_replies`: GET `conversations.replies`. -/
def SlackClient.get_thread_replies (c : SlackClient) (channel_id thread_ts : Json) : SlackCall :=
  ⟨"conversations.replies", false,
   [("channel", pyStr channel_id), ("ts", pyStr thread_ts)], [],
   c.bot_token, c.team_id⟩

/-- `SlackClient.get_users`: GET `users.list` with clamped limit, team id, and
the cursor when truthy. -/
def SlackClient.get_users (c : SlackClient) (limit : Json) (cursor : Json) :
    Except String SlackCall := do
  let m ← pyMin200 limit
  let base := [("limit", pyStr m), ("team_id", pyStr c.team_id)]
  let ps := if cursor.truthy then base ++ [("cursor", pyStr cursor)] else base
  pure ⟨"users.list", false, ps, [], c.bot_token, c.team_id⟩

/-- `SlackClient.get_user_profile`: GET `users.profile.get` with fixed
`include_labels=true`. -/
def SlackClient.get_user_profile (c : SlackClient) (user_id : Json) : SlackCall :=
  ⟨"users.profile.get", false,
   [("user", pyStr user_id), ("include_labels", "true")], [],
   c.bot_token, c.team_id⟩

/-! ## The tool registry (`TOOLS` in the source)

One `ToolSpec` per `mcp.types.Tool` literal, in source order.  The
free-text `description` strings of the individual parameters are not
reproduced here (they are inert documentation); everything structural —
tool name, tool description, parameter names, declared JSON types, the
`required` list and declared defaults — is. -/

structure ParamSpec where
  pname : String
  ptype : String
  required : Bool
  deflt : Option Json
deriving Repr, BEq

structure ToolSpec where
  name : String
  description : String
  params : List ParamSpec
deriving Repr, BEq

def TOOLS : List ToolSpec := [
  ⟨"slack_list_channels",
   "List public or pre-defined channels in the workspace with pagination",
   [⟨"limit", "number", false, some (.num 100)⟩,
    ⟨"cursor", "string", false, none⟩]⟩,
  ⟨"slack_post_message",
   "Post a new message to a Slack channel",
   [⟨"channel_id", "string", true, none⟩,
    ⟨"text", "string", true, none⟩]⟩,
  ⟨"slack_reply_to_thread",
   "Reply to a specific message thread in Slack",
   [⟨"channel_id", "string", true, none⟩,
    ⟨"thread_ts", "string", true, none⟩,
    ⟨"text", "string", true, none⟩]⟩,
  ⟨"slack_add_reaction",
   "Add a reaction emoji to a message",
   [⟨"channel_id", "string", true, none⟩,
    ⟨"timestamp", "string", true, none⟩,
    ⟨"reaction", "string", true, none⟩]⟩,
  ⟨"slack_get_channel_history",
   "Get recent messages from a channel",
   [⟨"channel_id", "string", true, none⟩,
    ⟨"limit", "number", false, some (.num 10)⟩]⟩,
  ⟨"slack_get_thread_replies",
   "Get all replies in a message thread",
   [⟨"channel_id", "string", true, none⟩,
    ⟨"thread_ts", "string", true, none⟩]⟩,
  ⟨"slack_get_users",
   "Get a list of all users in the workspace with their basic profile information",
   [⟨"cursor", "string", false, none⟩,
    ⟨"limit", "number", false, some (.num 100)⟩]⟩,
  ⟨"slack_get_user_profile",
   "Get detailed profile information for a specific user",
   [⟨"user_id", "string", true, none⟩]⟩,
  ⟨"get_conversation_info",
   "Get information about a specific conversation (channel or DM)",
   [⟨"channel_id", "string", true, none⟩]⟩]

/-- The `list_tools` handler returns `TOOLS` unchanged (its stderr logging is
diagnostic only). -/
def list_tools : List ToolSpec := TOOLS

/-! ## Environment and the credential fetch -/

/-- The process environment and the behaviour of the two external HTTP
services during one dispatch. -/
structure Env where
  nango_base_url : String
  nango_secret_key : String
  connection_id : String
  integration_id : String
  /-- Outcome of the credential-broker GET: `.error` models a connection
  failure, `raise_for_status` on a non-2xx response, or a JSON decode
  failure; `.ok j` is the decoded body of a 2xx response. -/
  brokerResult : Except String Json
  /-- Outcome of each Slack API request: `.error` models a transport failure
  or non-JSON body; `.ok j` is the decoded body. -/
  slackRespond : SlackCall → Except String Json

/-- One outbound HTTP request, as recorded in the dispatch trace. -/
inductive OutCall where
  | broker : List (String × String) → OutCall
  | slack : SlackCall → OutCall
deriving Repr, BEq

/-- Query parameters of the broker GET issued by `nango_credentials`:
`provider_config_key=<integration_id>` and `refresh_token=true`. -/
def brokerParams (env : Env) : List (String × String) :=
  [("provider_config_key", env.integration_id), ("refresh_token", "true")]

/-- `nango_credentials`: issues one GET against the broker and returns the
decoded JSON body verbatim; `response.raise_for_status()` turns a non-2xx
status into an exception.  No field of the body is inspected here. -/
def nango_credentials (env : Env) : List OutCall × Except String Json :=
  ([.broker (brokerParams env)], env.brokerResult)

/-- `credentials.get("credentials", \x7b\x7d).get("access_token")` in
`call_tool` (before the `try` block). -/
def extract_bot_token (credentials : Json) : Except String Json :=
  match pyGetD credentials "credentials" (.obj []) with
  | .error e => .error e
  | .ok cd => pyGet cd "access_token"

/-- `credentials.get("connection_config", \x7b\x7d).get("team.id")` in
`call_tool` (before the `try` block). -/
def extract_team_id (credentials : Json) : Except String Json :=
  match pyGetD credentials "connection_config" (.obj []) with
  | .error e => .error e
  | .ok cc => pyGet cc "team.id"

/-! ## The dispatcher (`call_tool`) -/

/-- Fetch a value from the `arguments` dict: `arguments.get(k)` (the dict is
statically typed, so no `AttributeError` can occur here). -/
def argGet (args : List (String × Json)) (k : String) : Json :=
  (alistGet args k).getD .null

/-- `arguments.get(k, dflt)`. -/
def argGetD (args : List (String × Json)) (k : String) (dflt : Json) : Json :=
  (alistGet args k).getD dflt

/-- The shared shape of the eight simple branches: build the request (which
may raise, e.g. `TypeError` in `min`), issue it, and wrap the decoded response
with `json.dumps` into one `TextContent`. -/
def simple_call (env : Env) (req : Except String SlackCall) :
    List SlackCall × Except String (List TextContent) :=
  match req with
  | .error e => ([], .error e)
  | .ok c =>
    match env.slackRespond c with
    | .error e => ([c], .error e)
    | .ok r => ([c], .ok [mkText r.dumps])

def notFoundMsg : String := "Channel not found or is archived"

/-- The `get_conversation_info` branch after validation: issue the request,
post-process with `conv_info_result`, and render `if response: ... else:` —
a `None` (or falsy) result becomes the "not found" envelope. -/
def conv_info_call (env : Env) (c : SlackCall) :
    List SlackCall × Except String (List TextContent) :=
  match env.slackRespond c with
  | .error e => ([c], .error e)
  | .ok data =>
    match conv_info_result data with
    | .error e => ([c], .error e)
    | .ok (some ch) =>
      ([c], .ok [if ch.truthy then mkText ch.dumps else errorEnvelope notFoundMsg])
    | .ok none => ([c], .ok [errorEnvelope notFoundMsg])

/-- The body of the `try` block in `call_tool`: the `elif` chain on the tool
name, with the per-operation required-argument checks (`raise ValueError` is
modelled as `Except.error` with the message, caught by the caller).  Returns
the Slack requests issued and either the contents or the exception caught by
the `except` clause. -/
def dispatch (env : Env) (cl : SlackClient) (name : String) (args : List (String × Json)) :
    List SlackCall × Except String (List TextContent) :=
  if name = "slack_list_channels" then
    simple_call env (cl.get_channels (argGetD args "limit" (.num 100)) (argGet args "cursor"))
  else if name = "get_conversation_info" then
    if !(argGet args "channel_id").truthy then
      ([], .error "Missing required argument: channel_id")
    else conv_info_call env (cl.conv_info_req (argGet args "channel_id"))
  else if name = "slack_post_message" then
    if !(argGet args "channel_id").truthy || !(argGet args "text").truthy then
      ([], .error "Missing required arguments: channel_id and text")
    else simple_call env (.ok (cl.post_message (argGet args "channel_id") (argGet args "text")))
  else if name = "slack_reply_to_thread" then
    if !(argGet args "channel_id").truthy || !(argGet args "thread_ts").truthy
        || !(argGet args "text").truthy then
      ([], .error "Missing required arguments: channel_id, thread_ts, and text")
    else simple_call env (.ok (cl.post_reply (argGet args "channel_id")
            (argGet args "thread_ts") (argGet args "text")))
  else if name = "slack_add_reaction" then
    if !(argGet args "channel_id").truthy || !(argGet args "timestamp").truthy
        || !(argGet args "reaction").truthy then
      ([], .error "Missing required arguments: channel_id, timestamp, and reaction")
    else simple_call env (.ok (cl.add_reaction (argGet args "channel_id")
            (argGet args "timestamp") (argGet args "reaction")))
  else if name = "slack_get_channel_history" then
    if !(argGet args "channel_id").truthy then
      ([], .error "Missing required argument: channel_id")
    else simple_call env (.ok (cl.get_channel_history (argGet args "channel_id")
            (argGetD args "limit" (.num 10))))
  else if name = "slack_get_thread_replies" then
    if !(argGet args "channel_id").truthy || !(argGet args "thread_ts").truthy then
      ([], .error "Missing required arguments: channel_id and thread_ts")
    else simple_call env (.ok (cl.get_thread_replies (argGet args "channel_id")
            (argGet args "thread_ts")))
  else if name = "slack_get_users" then
    simple_call env (cl.get_users (argGetD args "limit" (.num 100)) (argGet args "cursor"))
  else if name = "slack_get_user_profile" then
    if !(argGet args "user_id").truthy then
      ([], .error "Missing required argument: user_id")
    else simple_call env (.ok (cl.get_user_profile (argGet args "user_id")))
  else
    ([], .error ("Unknown tool: " ++ name))

/-- Outcome of one `call_tool` invocation: either a normal return of content
items, or an exception escaping `call_tool` itself. -/
inductive CallOutcome where
  | contents : List TextContent → CallOutcome
  | raised : String → CallOutcome
deriving Repr, DecidableEq

/-- The `call_tool` handler.  The credential fetch and the extraction of
`bot_token` / `team_id` happen BEFORE the `try` block, so a failure there
propagates as `CallOutcome.raised`; everything inside `dispatch` is covered
by the `except Exception` clause, which renders the uniform error envelope.
Returns the full outbound-call trace together with the outcome. -/
def call_tool (env : Env) (name : String) (args : List (String × Json)) :
    List OutCall × CallOutcome :=
  match (nango_credentials env).2 with
  | .error e => ((nango_credentials env).1, .raised e)
  | .ok credentials =>
    match extract_bot_token credentials with
    | .error e => ((nango_credentials env).1, .raised e)
    | .ok bot_token =>
      match extract_team_id credentials with
      | .error e => ((nango_credentials env).1, .raised e)
      | .ok team_id =>
        match dispatch env ⟨bot_token, team_id⟩ name args with
        | (tr, .ok items) =>
          ((nango_credentials env).1 ++ tr.map OutCall.slack, .contents items)
        | (tr, .error e) =>
          ((nango_credentials env).1 ++ tr.map OutCall.slack,
           .contents [errorEnvelope e])

/-- The Slack-API requests contained in a trace. -/
def slackCalls (tr : List OutCall) : List SlackCall :=
  tr.filterMap (fun c => match c with | .slack s => some s | .broker _ => none)

/-- The broker requests contained in a trace. -/
def brokerCalls (tr : List OutCall) : List (List (String × String)) :=
  tr.filterMap (fun c => match c with | .broker p => some p | .slack _ => none)

/-- The nine registered operation names, in `elif`-chain order of appearance
in the registry. -/
def TOOL_OP_NAMES : List String :=
  ["slack_list_channels", "slack_post_message", "slack_reply_to_thread",
   "slack_add_reaction", "slack_get_channel_history", "slack_get_thread_replies",
   "slack_get_users", "slack_get_user_profile", "get_conversation_info"]

/-- The operations that declare required parameters, with those parameters
(matching both the registry `required` lists and the dispatcher checks). -/
def requiredArgs : String → List String
  | "slack_post_message" => ["channel_id", "text"]
  | "slack_reply_to_thread" => ["channel_id", "thread_ts", "text"]
  | "slack_add_reaction" => ["channel_id", "timestamp", "reaction"]
  | "slack_get_channel_history" => ["channel_id"]
  | "slack_get_thread_replies" => ["channel_id", "thread_ts"]
  | "slack_get_user_profile" => ["user_id"]
  | "get_conversation_info" => ["channel_id"]
  | _ => []

/-- The `ValueError` message raised for each operation when a required
argument is missing or falsy. -/
def missingMsg : String → String
  | "slack_post_message" => "Missing required arguments: channel_id and text"
  | "slack_reply_to_thread" => "Missing required arguments: channel_id, thread_ts, and text"
  | "slack_add_reaction" => "Missing required arguments: channel_id, timestamp, and reaction"
  | "slack_get_channel_history" => "Missing required argument: channel_id"
  | "slack_get_thread_replies" => "Missing required arguments: channel_id and thread_ts"
  | "slack_get_user_profile" => "Missing required argument: user_id"
  | "get_conversation_info" => "Missing required argument: channel_id"
  | _ => ""

/-- The seven operations with at least one required parameter. -/
def OPS_WITH_REQUIRED : List String :=
  ["slack_post_message", "slack_reply_to_thread", "slack_add_reaction",
   "slack_get_channel_history", "slack_get_thread_replies",
   "slack_get_user_profile", "get_conversation_info"]

/-! ## Concrete test environments -/

/-- A well-formed broker body: token and team id both present. -/
def goodCreds : Json :=
  .obj [("credentials", .obj [("access_token", .str "xoxb-token")]),
        ("connection_config", .obj [("team.id", .str "T123")])]

def stubResp : Json := .obj [("ok", .bool true)]

/-- Broker and Slack both healthy. -/
def envOk : Env :=
  ⟨"https://api.nango.dev", "sk-test", "conn-1", "intg-slack",
   .ok goodCreds, fun _ => .ok stubResp⟩

/-- The broker interaction fails (connection error / non-2xx / bad JSON). -/
def envBroken : Env :=
  ⟨"https://api.nango.dev", "sk-test", "conn-1", "intg-slack",
   .error "ConnectError", fun _ => .ok stubResp⟩

/-- The broker answers 2xx with a body whose `connection_config` is a string:
the token extraction succeeds (yielding `None`), but
`.get("team.id")` on the string raises `AttributeError` before the `try`
block. -/
def envBadTeam : Env :=
  ⟨"https://api.nango.dev", "sk-test", "conn-1", "intg-slack",
   .ok (.obj [("connection_config", .str "oops")]), fun _ => .ok stubResp⟩

/-- The broker answers 2xx with a JSON body containing neither an access
token nor a tenant id. -/
def envNoToken : Env :=
  ⟨"https://api.nango.dev", "sk-test", "conn-1", "intg-slack",
   .ok (.obj []), fun _ => .ok stubResp⟩

/-- Healthy broker; Slack answers every request with
`\x7b"ok": true, "ts": "1.1"\x7d`. -/
def envPost : Env :=
  ⟨"https://api.nango.dev", "sk-test", "conn-1", "intg-slack",
   .ok goodCreds, fun _ => .ok (.obj [("ok", .bool true), ("ts", .str "1.1")])⟩

/-! ## Helper lemmas about the dispatcher -/

theorem simple_call_ok_single (env : Env) (req : Except String SlackCall)
    (items : List TextContent) (h : (simple_call env req).2 = Except.ok items) :
    items.length = 1 := by
  unfold simple_call at h
  repeat' split at h
  all_goals try simp_all
  all_goals (rw [← h]; rfl)

theorem conv_info_call_ok_single (env : Env) (c : SlackCall)
    (items : List TextContent) (h : (conv_info_call env c).2 = Except.ok items) :
    items.length = 1 := by
  unfold conv_info_call at h
  repeat' split at h
  all_goals try simp_all
  all_goals (rw [← h]; rfl)

theorem dispatch_ok_single (env : Env) (cl : SlackClient) (name : String)
    (args : List (String × Json)) (items : List TextContent)
    (h : (dispatch env cl name args).2 = Except.ok items) :
    items.length = 1 := by
  unfold dispatch at h
  repeat' split at h
  all_goals
    first
      | exact simple_call_ok_single _ _ _ h
      | exact conv_info_call_ok_single _ _ _ h
      | simp at h

/-- Every Slack request issued by `simple_call` is the request it was given. -/
theorem simple_call_mem (env : Env) (req : Except String SlackCall)
    (c : SlackCall) (h : c ∈ (simple_call env req).1) : req = .ok c := by
  unfold simple_call at h
  repeat' split at h
  all_goals simp_all

theorem conv_info_call_mem (env : Env) (c0 c : SlackCall)
    (h : c ∈ (conv_info_call env c0).1) : c = c0 := by
  unfold conv_info_call at h
  repeat' split at h
  all_goals simp_all

/-- `get_channels` builds its request for the client identity it was given. -/
theorem get_channels_ok_token (cl : SlackClient) (l cur : Json) (c : SlackCall)
    (h : cl.get_channels l cur = .ok c) : c.token = cl.bot_token := by
  unfold SlackClient.get_channels at h
  cases hm : pyMin200 l with
  | error e => rw [hm] at h; simp [Bind.bind, Except.bind] at h
  | ok m =>
    rw [hm] at h
    simp [Bind.bind, Except.bind, pure, Except.pure] at h
    rw [← h]

/-- `get_users` builds its request for the client identity it was given. -/
theorem get_users_ok_token (cl : SlackClient) (l cur : Json) (c : SlackCall)
    (h : cl.get_users l cur = .ok c) : c.token = cl.bot_token := by
  unfold SlackClient.get_users at h
  cases hm : pyMin200 l with
  | error e => rw [hm] at h; simp [Bind.bind, Except.bind] at h
  | ok m =>
    rw [hm] at h
    simp [Bind.bind, Except.bind, pure, Except.pure] at h
    rw [← h]

/-- Every Slack request issued by the dispatch body carries the `bot_token`
of the client as its bearer identity. -/
theorem dispatch_calls_token (env : Env) (cl : SlackClient) (name : String)
    (args : List (String × Json)) (c : SlackCall)
    (h : c ∈ (dispatch env cl name args).1) : c.token = cl.bot_token := by
  unfold dispatch at h
  repeat' split at h
  all_goals
    first
      | simp at h
      | (rw [conv_info_call_mem _ _ _ h]; rfl)
      | exact get_channels_ok_token _ _ _ _ (simple_call_mem _ _ _ h)
      | exact get_users_ok_token _ _ _ _ (simple_call_mem _ _ _ h)
      | (have h2 := simple_call_mem _ _ _ h
         injection h2 with h3
         rw [← h3]
         rfl)

/-! ### Unfolding lemmas for the `elif` chain and `call_tool` -/

theorem dispatch_list_channels (env : Env) (cl : SlackClient) (args : List (String × Json)) :
    dispatch env cl "slack_list_channels" args =
      simple_call env (cl.get_channels (argGetD args "limit" (.num 100)) (argGet args "cursor")) := rfl

theorem dispatch_conv_info (env : Env) (cl : SlackClient) (args : List (String × Json)) :
    dispatch env cl "get_conversation_info" args =
      (if !(argGet args "channel_id").truthy then
        ([], .error "Missing required argument: channel_id")
      else conv_info_call env (cl.conv_info_req (argGet args "channel_id"))) := rfl

theorem dispatch_post_message (env : Env) (cl : SlackClient) (args : List (String × Json)) :
    dispatch env cl "slack_post_message" args =
      (if !(argGet args "channel_id").truthy || !(argGet args "text").truthy then
        ([], .error "Missing required arguments: channel_id and text")
      else simple_call env
        (.ok (cl.post_message (argGet args "channel_id") (argGet args "text")))) := rfl

theorem dispatch_reply (env : Env) (cl : SlackClient) (args : List (String × Json)) :
    dispatch env cl "slack_reply_to_thread" args =
      (if !(argGet args "channel_id").truthy || !(argGet args "thread_ts").truthy
          || !(argGet args "text").truthy then
        ([], .error "Missing required arguments: channel_id, thread_ts, and text")
      else simple_call env (.ok (cl.post_reply (argGet args "channel_id")
              (argGet args "thread_ts") (argGet args "text")))) := rfl

theorem dispatch_reaction (env : Env) (cl : SlackClient) (args : List (String × Json)) :
    dispatch env cl "slack_add_reaction" args =
      (if !(argGet args "channel_id").truthy || !(argGet args "timestamp").truthy
          || !(argGet args "reaction").truthy then
        ([], .error "Missing required arguments: channel_id, timestamp, and reaction")
      else simple_call env (.ok (cl.add_reaction (argGet args "channel_id")
              (argGet args "timestamp") (argGet args "reaction")))) := rfl

theorem dispatch_history (env : Env) (cl : SlackClient) (args : List (String × Json)) :
    dispatch env cl "slack_get_channel_history" args =
      (if !(argGet args "channel_id").truthy then
        ([], .error "Missing required argument: channel_id")
      else simple_call env (.ok (cl.get_channel_history (argGet args "channel_id")
              (argGetD args "limit" (.num 10))))) := rfl

theorem dispatch_replies (env : Env) (cl : SlackClient) (args : List (String × Json)) :
    dispatch env cl "slack_get_thread_replies" args =
      (if !(argGet args "channel_id").truthy || !(argGet args "thread_ts").truthy then
        ([], .error "Missing required arguments: channel_id and thread_ts")
      else simple_call env (.ok (cl.get_thread_replies (argGet args "channel_id")
              (argGet args "thread_ts")))) := rfl

theorem dispatch_users (env : Env) (cl : SlackClient) (args : List (String × Json)) :
    dispatch env cl "slack_get_users" args =
      simple_call env (cl.get_users (argGetD args "limit" (.num 100)) (argGet args "cursor")) := rfl

theorem dispatch_profile (env : Env) (cl : SlackClient) (args : List (String × Json)) :
    dispatch env cl "slack_get_user_profile" args =
      (if !(argGet args "user_id").truthy then
        ([], .error "Missing required argument: user_id")
      else simple_call env (.ok (cl.get_user_profile (argGet args "user_id")))) := rfl

theorem dispatch_unknown (env : Env) (cl : SlackClient) (name : String)
    (args : List (String × Json)) (h : name ∉ TOOL_OP_NAMES) :
    dispatch env cl name args = ([], .error ("Unknown tool: " ++ name)) := by
  simp only [TOOL_OP_NAMES, List.mem_cons, List.not_mem_nil, or_false, not_or] at h
  obtain ⟨h1, h2, h3, h4, h5, h6, h7, h8, h9⟩ := h
  unfold dispatch
  rw [if_neg h1, if_neg h9, if_neg h2, if_neg h3, if_neg h4, if_neg h5, if_neg h6,
      if_neg h7, if_neg h8]

theorem call_tool_broker_error (env : Env) (name : String) (args : List (String × Json))
    (e : String) (hb : env.brokerResult = Except.error e) :
    call_tool env name args = ([OutCall.broker (brokerParams env)], .raised e) := by
  unfold call_tool
  simp only [nango_credentials, hb]

theorem call_tool_dispatch_ok (env : Env) (j t m : Json) (name : String)
    (args : List (String × Json)) (tr : List SlackCall) (items : List TextContent)
    (hb : env.brokerResult = Except.ok j) (ht : extract_bot_token j = Except.ok t)
    (hm : extract_team_id j = Except.ok m)
    (hd : dispatch env ⟨t, m⟩ name args = (tr, Except.ok items)) :
    call_tool env name args =
      (OutCall.broker (brokerParams env) :: tr.map OutCall.slack, .contents items) := by
  unfold call_tool
  simp only [nango_credentials, hb, ht, hm, hd, List.singleton_append]

theorem call_tool_dispatch_error (env : Env) (j t m : Json) (name : String)
    (args : List (String × Json)) (tr : List SlackCall) (e : String)
    (hb : env.brokerResult = Except.ok j) (ht : extract_bot_token j = Except.ok t)
    (hm : extract_team_id j = Except.ok m)
    (hd : dispatch env ⟨t, m⟩ name args = (tr, Except.error e)) :
    call_tool env name args =
      (OutCall.broker (brokerParams env) :: tr.map OutCall.slack,
       .contents [errorEnvelope e]) := by
  unfold call_tool
  simp only [nango_credentials, hb, ht, hm, hd, List.singleton_append]

/-! ## Claim theorems -/

/-- **C1** (counterexample).  The claim says `callTool` never raises past its
own boundary and that a credential-fetch failure is returned as an error
envelope.  On the code the fetch happens before the `try` block: with a
failing broker, `callTool("slack_post_message", ...)` lets the exception
escape instead of returning a content item. -/
theorem C1_uncaught_credential_failure :
    (call_tool envBroken "slack_post_message"
        [("channel_id", Json.str "C123"), ("text", Json.str "hi")]).2 =
      CallOutcome.raised "ConnectError" := rfl

/-- **C1** (amended): any failure arising inside the dispatch body — unknown
tool, argument validation, the remote call, response post-processing — is
caught at the top level and returned as the single error-envelope content
item `\x7b"error": "<message>"\x7d`; but a failure while fetching the
credentials (broker unreachable, non-2xx, bad JSON), while extracting the
bot token, or while extracting the team id from the broker body escapes
`callTool` as an exception.  In each escaping case the requested operation is
never attempted (the broker request is the whole trace). -/
theorem C1_error_containment (env : Env) (name : String) (args : List (String × Json)) :
    (∀ e, env.brokerResult = Except.error e →
      call_tool env name args = ([OutCall.broker (brokerParams env)], .raised e)) ∧
    (∀ j e, env.brokerResult = Except.ok j → extract_bot_token j = Except.error e →
      call_tool env name args = ([OutCall.broker (brokerParams env)], .raised e)) ∧
    (∀ j t e, env.brokerResult = Except.ok j → extract_bot_token j = Except.ok t →
      extract_team_id j = Except.error e →
      call_tool env name args = ([OutCall.broker (brokerParams env)], .raised e)) ∧
    (∀ j t m, env.brokerResult = Except.ok j → extract_bot_token j = Except.ok t →
      extract_team_id j = Except.ok m →
      (∀ tr e, dispatch env ⟨t, m⟩ name args = (tr, Except.error e) →
        (call_tool env name args).2 = .contents [errorEnvelope e]) ∧
      (∃ items, (call_tool env name args).2 = .contents items ∧ items.length = 1)) := by
  refine ⟨?_, ?_, ?_, ?_⟩
  · intro e hb
    exact call_tool_broker_error env name args e hb
  · intro j e hb he
    unfold call_tool
    simp only [nango_credentials, hb, he]
  · intro j t e hb ht he
    unfold call_tool
    simp only [nango_credentials, hb, ht, he]
  · intro j t m hb ht hm
    constructor
    · intro tr e hd
      rw [call_tool_dispatch_error env j t m name args tr e hb ht hm hd]
    · rcases hd : dispatch env ⟨t, m⟩ name args with ⟨tr, r⟩
      cases r with
      | ok items =>
        exact ⟨items, by rw [call_tool_dispatch_ok env j t m name args tr items hb ht hm hd],
          dispatch_ok_single env _ name args items (by rw [hd])⟩
      | error e =>
        exact ⟨[errorEnvelope e],
          by rw [call_tool_dispatch_error env j t m name args tr e hb ht hm hd], rfl⟩

/-- Witness for C1 (amended), exercising all three escaping cases and the
caught dispatch-body case: (i) broken broker — exception escapes; (ii) broker
body `\x7b"connection_config": "oops"\x7d` — token extraction yields `None`
but `.get("team.id")` on the string raises before the `try` block and
escapes; (iii) healthy credential stage with an unknown tool name — the
failure is caught and returned as the exact error envelope. -/
theorem C1_error_containment_witness :
    (call_tool envBroken "slack_post_message"
        [("channel_id", Json.str "C123"), ("text", Json.str "hi")] =
      ([OutCall.broker (brokerParams envBroken)], CallOutcome.raised "ConnectError")) ∧
    (call_tool envBadTeam "slack_post_message"
        [("channel_id", Json.str "C123"), ("text", Json.str "hi")] =
      ([OutCall.broker (brokerParams envBadTeam)], CallOutcome.raised "AttributeError")) ∧
    ((call_tool envOk "slack_delete_message" []).2 =
      CallOutcome.contents [errorEnvelope "Unknown tool: slack_delete_message"]) :=
  ⟨(C1_error_containment envBroken "slack_post_message"
      [("channel_id", Json.str "C123"), ("text", Json.str "hi")]).1 "ConnectError" rfl,
   (C1_error_containment envBadTeam "slack_post_message"
      [("channel_id", Json.str "C123"), ("text", Json.str "hi")]).2.2.1
      (Json.obj [("connection_config", Json.str "oops")]) Json.null "AttributeError"
      rfl rfl rfl,
   ((C1_error_containment envOk "slack_delete_message" []).2.2.2 goodCreds
      (Json.str "xoxb-token") (Json.str "T123") rfl rfl rfl).1 []
      "Unknown tool: slack_delete_message" rfl⟩

/-- **C2** (counterexample).  The claim says the credential fetch fails when
the broker response lacks an access token or tenant id.  On the code
`nango_credentials` returns the decoded body verbatim: a 2xx empty-object
body is returned normally, and the dispatcher then extracts `None` for both
fields. -/
theorem C2_fetch_returns_without_token :
    (nango_credentials envNoToken).2 = Except.ok (Json.obj []) ∧
    extract_bot_token (Json.obj []) = Except.ok Json.null ∧
    extract_team_id (Json.obj []) = Except.ok Json.null := ⟨rfl, rfl, rfl⟩

/-- The concrete `slack_post_message` arguments used in the spec scenario. -/
def pmArgs : List (String × Json) := [("channel_id", .str "C123"), ("text", .str "hi")]

/-- The `chat.postMessage` request issued for `pmArgs` by a client that was
constructed from a broker body with no token and no team id. -/
def pmCallNull : SlackCall :=
  ⟨"chat.postMessage", true, [], [("channel", .str "C123"), ("text", .str "hi")],
   Json.null, Json.null⟩

/-- **C2** (amended): `nango_credentials` raises exactly when the broker is
unreachable, returns a non-2xx status, or the body fails to decode as JSON;
it performs NO validation of the body content.  A 2xx JSON body lacking the
access token and tenant id is returned as-is; the dispatcher then extracts
`None` for both fields and proceeds to issue the remote call with those null
credentials. -/
theorem C2_no_body_validation (env : Env) (r : Json)
    (hb : env.brokerResult = Except.ok (Json.obj []))
    (hr : ∀ c, env.slackRespond c = Except.ok r) :
    (nango_credentials env).2 = Except.ok (Json.obj []) ∧
    ∃ c : SlackCall,
      (call_tool env "slack_post_message" pmArgs).1 =
        [OutCall.broker (brokerParams env), OutCall.slack c] ∧
      c.token = Json.null ∧ c.team = Json.null := by
  constructor
  · exact hb
  · refine ⟨pmCallNull, ?_, rfl, rfl⟩
    have h1 : dispatch env ⟨Json.null, Json.null⟩ "slack_post_message" pmArgs =
        simple_call env (.ok pmCallNull) := rfl
    have h2 : simple_call env (.ok pmCallNull) = ([pmCallNull], .ok [mkText r.dumps]) := by
      simp only [simple_call, hr]
    have h3 := call_tool_dispatch_ok env (Json.obj []) Json.null Json.null
        "slack_post_message" pmArgs [pmCallNull] [mkText r.dumps] hb rfl rfl (h1.trans h2)
    rw [h3]
    rfl

/-- Witness for C2 (amended) at the concrete token-less broker environment. -/
theorem C2_no_body_validation_witness :
    (nango_credentials envNoToken).2 = Except.ok (Json.obj []) ∧
    ∃ c : SlackCall,
      (call_tool envNoToken "slack_post_message" pmArgs).1 =
        [OutCall.broker (brokerParams envNoToken), OutCall.slack c] ∧
      c.token = Json.null ∧ c.team = Json.null :=
  C2_no_body_validation envNoToken stubResp rfl (fun _ => rfl)

/-- **C3** (counterexample).  The claim says an unknown tool name performs
zero outbound calls.  On the code the credential broker is still called (the
fetch precedes the name lookup): the outbound trace of
`callTool("slack_delete_message", \x7b\x7d)` is non-empty. -/
theorem C3_unknown_tool_still_calls_broker :
    (call_tool envOk "slack_delete_message" []).1 ≠ [] := by
  have h1 : (call_tool envOk "slack_delete_message" []).1 =
      [OutCall.broker (brokerParams envOk)] := rfl
  rw [h1]
  simp

/-- **C3** (amended): for every tool name outside the nine registered names,
`callTool` (when the credential stage succeeds) returns exactly the single
content item `\x7b"error": "Unknown tool: <name>"\x7d` and performs zero
outbound calls to the Slack API — but the one credential-broker call still
happens. -/
theorem C3_unknown_tool_envelope (env : Env) (j t m : Json) (name : String)
    (args : List (String × Json))
    (hb : env.brokerResult = Except.ok j) (ht : extract_bot_token j = Except.ok t)
    (hm : extract_team_id j = Except.ok m) (hn : name ∉ TOOL_OP_NAMES) :
    call_tool env name args =
      ([OutCall.broker (brokerParams env)],
       .contents [errorEnvelope ("Unknown tool: " ++ name)]) ∧
    slackCalls (call_tool env name args).1 = [] := by
  have hd := dispatch_unknown env ⟨t, m⟩ name args hn
  have h3 := call_tool_dispatch_error env j t m name args [] ("Unknown tool: " ++ name)
      hb ht hm hd
  constructor
  · simpa using h3
  · rw [h3]
    rfl

/-- Witness for C3 (amended) at the example input given in the spec. -/
theorem C3_unknown_tool_envelope_witness :
    call_tool envOk "slack_delete_message" [] =
      ([OutCall.broker (brokerParams envOk)],
       .contents [errorEnvelope "Unknown tool: slack_delete_message"]) ∧
    slackCalls (call_tool envOk "slack_delete_message" []).1 = [] :=
  C3_unknown_tool_envelope envOk goodCreds (Json.str "xoxb-token") (Json.str "T123")
    "slack_delete_message" [] rfl rfl rfl (by decide)

/-- **C5**: `list_tools` is a pure constant: it returns the same ordered
sequence of exactly 9 descriptors on every invocation, with exactly the
canonical names in the stated order. -/
theorem C5_registry_names_ordered :
    list_tools.map ToolSpec.name =
      ["slack_list_channels", "slack_post_message", "slack_reply_to_thread",
       "slack_add_reaction", "slack_get_channel_history", "slack_get_thread_replies",
       "slack_get_users", "slack_get_user_profile", "get_conversation_info"] ∧
    list_tools.length = 9 ∧ list_tools = TOOLS := ⟨rfl, rfl, rfl⟩

/-- A validation failure inside the dispatch body surfaces as the error
envelope with no Slack call in the trace. -/
theorem call_tool_validation_error (env : Env) (j t m : Json) (name : String)
    (args : List (String × Json))
    (hb : env.brokerResult = Except.ok j) (ht : extract_bot_token j = Except.ok t)
    (hm : extract_team_id j = Except.ok m)
    (hd : dispatch env ⟨t, m⟩ name args = ([], .error (missingMsg name))) :
    (call_tool env name args).2 = .contents [errorEnvelope (missingMsg name)] ∧
    slackCalls (call_tool env name args).1 = [] := by
  have h3 := call_tool_dispatch_error env j t m name args [] (missingMsg name) hb ht hm hd
  exact ⟨by simp [h3], by simp [h3, slackCalls]⟩

/-- **C4**: for every operation with required parameters, calling it (with the
credential stage succeeding) while any required argument is absent or falsy
(e.g. empty) returns the error envelope whose message names the missing
argument, and no request is issued against the Slack API.  Each required
argument name occurs verbatim in the message. -/
theorem C4_missing_required_args (env : Env) (j t m : Json) (name : String)
    (args : List (String × Json))
    (hb : env.brokerResult = Except.ok j) (ht : extract_bot_token j = Except.ok t)
    (hm : extract_team_id j = Except.ok m)
    (hname : name ∈ OPS_WITH_REQUIRED)
    (hmiss : ∃ a ∈ requiredArgs name, (argGet args a).truthy = false) :
    (call_tool env name args).2 = .contents [errorEnvelope (missingMsg name)] ∧
    slackCalls (call_tool env name args).1 = [] ∧
    ∀ a ∈ requiredArgs name, List.IsInfix a.data (missingMsg name).data := by
  simp only [OPS_WITH_REQUIRED, List.mem_cons, List.not_mem_nil, or_false] at hname
  obtain ⟨a, ha, hfa⟩ := hmiss
  rcases hname with rfl | rfl | rfl | rfl | rfl | rfl | rfl <;>
    simp only [requiredArgs, List.mem_cons, List.not_mem_nil, or_false] at ha
  · -- slack_post_message
    have hc : (!(argGet args "channel_id").truthy || !(argGet args "text").truthy) = true := by
      rcases ha with rfl | rfl <;> simp [hfa]
    have hd : dispatch env ⟨t, m⟩ "slack_post_message" args =
        ([], .error (missingMsg "slack_post_message")) := by
      rw [dispatch_post_message, if_pos hc]
      rfl
    obtain ⟨hA, hB⟩ := call_tool_validation_error env j t m _ args hb ht hm hd
    refine ⟨hA, hB, ?_⟩
    intro x hx
    simp only [requiredArgs] at hx
    fin_cases hx <;> decide
  · -- slack_reply_to_thread
    have hc : (!(argGet args "channel_id").truthy || !(argGet args "thread_ts").truthy
        || !(argGet args "text").truthy) = true := by
      rcases ha with rfl | rfl | rfl <;> simp [hfa]
    have hd : dispatch env ⟨t, m⟩ "slack_reply_to_thread" args =
        ([], .error (missingMsg "slack_reply_to_thread")) := by
      rw [dispatch_reply, if_pos hc]
      rfl
    obtain ⟨hA, hB⟩ := call_tool_validation_error env j t m _ args hb ht hm hd
    refine ⟨hA, hB, ?_⟩
    intro x hx
    simp only [requiredArgs] at hx
    fin_cases hx <;> decide
  · -- slack_add_reaction
    have hc : (!(argGet args "channel_id").truthy || !(argGet args "timestamp").truthy
        || !(argGet args "reaction").truthy) = true := by
      rcases ha with rfl | rfl | rfl <;> simp [hfa]
    have hd : dispatch env ⟨t, m⟩ "slack_add_reaction" args =
        ([], .error (missingMsg "slack_add_reaction")) := by
      rw [dispatch_reaction, if_pos hc]
      rfl
    obtain ⟨hA, hB⟩ := call_tool_validation_error env j t m _ args hb ht hm hd
    refine ⟨hA, hB, ?_⟩
    intro x hx
    simp only [requiredArgs] at hx
    fin_cases hx <;> decide
  · -- slack_get_channel_history
    have hc : (!(argGet args "channel_id").truthy) = true := by
      rcases ha with rfl
      simp [hfa]
    have hd : dispatch env ⟨t, m⟩ "slack_get_channel_history" args =
        ([], .error (missingMsg "slack_get_channel_history")) := by
      rw [dispatch_history, if_pos hc]
      rfl
    obtain ⟨hA, hB⟩ := call_tool_validation_error env j t m _ args hb ht hm hd
    refine ⟨hA, hB, ?_⟩
    intro x hx
    simp only [requiredArgs] at hx
    fin_cases hx <;> decide
  · -- slack_get_thread_replies
    have hc : (!(argGet args "channel_id").truthy || !(argGet args "thread_ts").truthy) = true := by
      rcases ha with rfl | rfl <;> simp [hfa]
    have hd : dispatch env ⟨t, m⟩ "slack_get_thread_replies" args =
        ([], .error (missingMsg "slack_get_thread_replies")) := by
      rw [dispatch_replies, if_pos hc]
      rfl
    obtain ⟨hA, hB⟩ := call_tool_validation_error env j t m _ args hb ht hm hd
    refine ⟨hA, hB, ?_⟩
    intro x hx
    simp only [requiredArgs] at hx
    fin_cases hx <;> decide
  · -- slack_get_user_profile
    have hc : (!(argGet args "user_id").truthy) = true := by
      rcases ha with rfl
      simp [hfa]
    have hd : dispatch env ⟨t, m⟩ "slack_get_user_profile" args =
        ([], .error (missingMsg "slack_get_user_profile")) := by
      rw [dispatch_profile, if_pos hc]
      rfl
    obtain ⟨hA, hB⟩ := call_tool_validation_error env j t m _ args hb ht hm hd
    refine ⟨hA, hB, ?_⟩
    intro x hx
    simp only [requiredArgs] at hx
    fin_cases hx <;> decide
  · -- get_conversation_info
    have hc : (!(argGet args "channel_id").truthy) = true := by
      rcases ha with rfl
      simp [hfa]
    have hd : dispatch env ⟨t, m⟩ "get_conversation_info" args =
        ([], .error (missingMsg "get_conversation_info")) := by
      rw [dispatch_conv_info, if_pos hc]
      rfl
    obtain ⟨hA, hB⟩ := call_tool_validation_error env j t m _ args hb ht hm hd
    refine ⟨hA, hB, ?_⟩
    intro x hx
    simp only [requiredArgs] at hx
    fin_cases hx <;> decide

/-- Witness for C4: posting with `text` absent yields the validation envelope
and an empty Slack trace. -/
theorem C4_missing_required_args_witness :
    (call_tool envOk "slack_post_message" [("channel_id", Json.str "C123")]).2 =
      .contents [errorEnvelope (missingMsg "slack_post_message")] ∧
    slackCalls (call_tool envOk "slack_post_message" [("channel_id", Json.str "C123")]).1 = [] ∧
    ∀ a ∈ requiredArgs "slack_post_message",
      List.IsInfix a.data (missingMsg "slack_post_message").data :=
  C4_missing_required_args envOk goodCreds (Json.str "xoxb-token") (Json.str "T123")
    "slack_post_message" [("channel_id", Json.str "C123")] rfl rfl rfl (by decide)
    ⟨"text", by decide, rfl⟩

/-! ### Trace bookkeeping lemmas -/

theorem slackCalls_map (l : List SlackCall) : slackCalls (l.map OutCall.slack) = l := by
  induction l with
  | nil => rfl
  | cons x xs ih =>
    show x :: slackCalls (xs.map OutCall.slack) = x :: xs
    rw [ih]

theorem brokerCalls_map (l : List SlackCall) : brokerCalls (l.map OutCall.slack) = [] := by
  induction l with
  | nil => rfl
  | cons x xs ih =>
    show brokerCalls (xs.map OutCall.slack) = []
    exact ih

theorem slackCalls_trace (p : List (String × String)) (l : List SlackCall) :
    slackCalls (OutCall.broker p :: l.map OutCall.slack) = l := slackCalls_map l

theorem brokerCalls_trace (p : List (String × String)) (l : List SlackCall) :
    brokerCalls (OutCall.broker p :: l.map OutCall.slack) = [p] := by
  show p :: brokerCalls (l.map OutCall.slack) = [p]
  rw [brokerCalls_map]

/-! ### Request-shape lemmas for the two paginated list operations -/

/-- The exact `conversations.list` request built by `get_channels` for a
numeric limit. -/
theorem get_channels_eq (cl : SlackClient) (n : Int) (cursor : Json) :
    cl.get_channels (.num n) cursor = .ok
      ⟨"conversations.list", false,
       (if cursor.truthy then
          [("types", "public_channel"), ("exclude_archived", "true"),
           ("limit", toString (min n 200)), ("team_id", pyStr cl.team_id),
           ("cursor", pyStr cursor)]
        else
          [("types", "public_channel"), ("exclude_archived", "true"),
           ("limit", toString (min n 200)), ("team_id", pyStr cl.team_id)]),
       [], cl.bot_token, cl.team_id⟩ := rfl

/-- The exact `users.list` request built by `get_users` for a numeric
limit. -/
theorem get_users_eq (cl : SlackClient) (n : Int) (cursor : Json) :
    cl.get_users (.num n) cursor = .ok
      ⟨"users.list", false,
       (if cursor.truthy then
          [("limit", toString (min n 200)), ("team_id", pyStr cl.team_id),
           ("cursor", pyStr cursor)]
        else
          [("limit", toString (min n 200)), ("team_id", pyStr cl.team_id)]),
       [], cl.bot_token, cl.team_id⟩ := rfl

/-- **C6**: for `listChannels` and `listUsers` the limit forwarded to the
remote API is `min(limit, 200)`; a supplied limit of 500 is forwarded as
`"200"` for both `slack_list_channels` and `slack_get_users`, and with no
`limit` argument the default 100 is forwarded as `"100"`. -/
theorem C6_limit_clamped (cl : SlackClient) (n : Int) (cursor : Json) :
    (∃ c, cl.get_channels (.num n) cursor = .ok c ∧
        alistGetS c.qparams "limit" = some (toString (min n 200))) ∧
    (∃ c, cl.get_users (.num n) cursor = .ok c ∧
        alistGetS c.qparams "limit" = some (toString (min n 200))) ∧
    ((slackCalls (call_tool envOk "slack_list_channels" [("limit", .num 500)]).1).map
        (fun c => alistGetS c.qparams "limit") = [some "200"]) ∧
    ((slackCalls (call_tool envOk "slack_get_users" [("limit", .num 500)]).1).map
        (fun c => alistGetS c.qparams "limit") = [some "200"]) ∧
    ((slackCalls (call_tool envOk "slack_list_channels" []).1).map
        (fun c => alistGetS c.qparams "limit") = [some "100"]) ∧
    ((slackCalls (call_tool envOk "slack_get_users" []).1).map
        (fun c => alistGetS c.qparams "limit") = [some "100"]) := by
  refine ⟨⟨_, get_channels_eq cl n cursor, ?_⟩, ⟨_, get_users_eq cl n cursor, ?_⟩,
    ?_, ?_, ?_, ?_⟩
  · by_cases hcur : cursor.truthy
    · rw [if_pos hcur]; rfl
    · rw [if_neg hcur]; rfl
  · by_cases hcur : cursor.truthy
    · rw [if_pos hcur]; rfl
    · rw [if_neg hcur]; rfl
  · rfl
  · rfl
  · rfl
  · rfl

/-- Environment whose Slack API answers every request with `data` (and whose
broker answers with the well-formed credentials). -/
def convEnv (data : Json) : Env :=
  ⟨"https://api.nango.dev", "sk-test", "conn-1", "intg-slack",
   .ok goodCreds, fun _ => .ok data⟩

/-- **C7**: `get_conversation_info` yields the channel object only when the
remote response is ok, contains a truthy channel, and that channel is not
archived; an archived channel and a missing channel both yield `None`, which
the dispatcher renders as the one fixed "not found" envelope — the two cases
are indistinguishable to the caller. -/
theorem C7_archived_as_missing (dfs cfs : List (String × Json)) (data ch : Json) :
    (((alistGet dfs "ok").getD .null).truthy = true →
      alistGet dfs "channel" = some (Json.obj cfs) → (Json.obj cfs).truthy = true →
      ((alistGet cfs "is_archived").getD .null).truthy = true →
      conv_info_result (.obj dfs) = .ok none) ∧
    ((((alistGet dfs "ok").getD .null).truthy = false ∨
      ((alistGet dfs "channel").getD .null).truthy = false) →
      conv_info_result (.obj dfs) = .ok none) ∧
    (conv_info_result data = .ok none →
      (call_tool (convEnv data) "get_conversation_info" [("channel_id", .str "C1")]).2 =
        .contents [errorEnvelope notFoundMsg]) ∧
    (conv_info_result data = .ok (some ch) →
      ∃ dfs2 cfs2, data = .obj dfs2 ∧ ch = .obj cfs2 ∧
        ((alistGet dfs2 "ok").getD .null).truthy = true ∧
        (alistGet dfs2 "channel").getD .null = ch ∧ ch.truthy = true ∧
        ((alistGet cfs2 "is_archived").getD .null).truthy = false) := by
  refine ⟨?_, ?_, ?_, ?_⟩
  · intro hok hch htr harch
    simp only [conv_info_result]
    rw [hch]
    simp only [Option.getD_some]
    rw [if_pos hok, if_pos htr, if_pos harch]
  · intro h
    simp only [conv_info_result]
    rcases h with h1 | h2
    · rw [if_neg (by simp [h1])]
    · by_cases hok : ((alistGet dfs "ok").getD .null).truthy = true
      · rw [if_pos hok, if_neg (by simp [h2])]
      · rw [if_neg hok]
  · intro h
    have hd : dispatch (convEnv data) ⟨.str "xoxb-token", .str "T123"⟩
        "get_conversation_info" [("channel_id", Json.str "C1")] =
        ([⟨"conversations.info", false, [("channel", "C1")], [],
           .str "xoxb-token", .str "T123"⟩],
         .ok [errorEnvelope notFoundMsg]) := by
      rw [dispatch_conv_info, if_neg (by decide)]
      unfold conv_info_call
      simp only [convEnv, h]
      rfl
    have h3 := call_tool_dispatch_ok (convEnv data) goodCreds (.str "xoxb-token")
        (.str "T123") "get_conversation_info" [("channel_id", Json.str "C1")]
        [⟨"conversations.info", false, [("channel", "C1")], [],
          .str "xoxb-token", .str "T123"⟩]
        [errorEnvelope notFoundMsg] rfl rfl rfl hd
    rw [h3]
  · intro h
    cases data with
    | obj dfs2 =>
      simp only [conv_info_result] at h
      by_cases hok : ((alistGet dfs2 "ok").getD .null).truthy = true
      case neg => rw [if_neg hok] at h; exact absurd h (by simp)
      rw [if_pos hok] at h
      by_cases hch : ((alistGet dfs2 "channel").getD .null).truthy = true
      case neg => rw [if_neg hch] at h; exact absurd h (by simp)
      rw [if_pos hch] at h
      split at h
      · rename_i cfs2 heq
        by_cases harch : ((alistGet cfs2 "is_archived").getD .null).truthy = true
        case pos => rw [if_pos harch] at h; exact absurd h (by simp)
        rw [if_neg harch] at h
        injection h with h2
        injection h2 with h3
        refine ⟨dfs2, cfs2, rfl, h3.symm, hok, heq.trans h3, ?_, ?_⟩
        · rw [← h3]
          rw [← heq]
          exact hch
        · simpa using harch
      · exact absurd h (by simp)
    | null => exact absurd h (by simp [conv_info_result])
    | bool b => exact absurd h (by simp [conv_info_result])
    | num n => exact absurd h (by simp [conv_info_result])
    | str s => exact absurd h (by simp [conv_info_result])
    | arr xs => exact absurd h (by simp [conv_info_result])

/-- Witness for C7 at a concrete archived channel and a concrete ok/missing
response: both render the identical "not found" envelope. -/
theorem C7_archived_as_missing_witness :
    conv_info_result (.obj [("ok", .bool true),
      ("channel", .obj [("name", .str "general"), ("is_archived", .bool true)])]) =
      .ok none ∧
    (call_tool (convEnv (.obj [("ok", .bool true),
        ("channel", .obj [("name", .str "general"), ("is_archived", .bool true)])]))
      "get_conversation_info" [("channel_id", .str "C1")]).2 =
      .contents [errorEnvelope notFoundMsg] ∧
    (call_tool (convEnv (.obj [("ok", .bool false)]))
      "get_conversation_info" [("channel_id", .str "C1")]).2 =
      .contents [errorEnvelope notFoundMsg] := by
  have harch := (C7_archived_as_missing
    [("ok", .bool true), ("channel", .obj [("name", .str "general"), ("is_archived", .bool true)])]
    [("name", .str "general"), ("is_archived", .bool true)]
    (.obj [("ok", .bool true),
      ("channel", .obj [("name", .str "general"), ("is_archived", .bool true)])])
    Json.null).1 rfl rfl rfl rfl
  have hmiss := (C7_archived_as_missing [("ok", .bool false)] []
    (.obj [("ok", .bool false)]) Json.null).2.1 (Or.inl rfl)
  refine ⟨harch, ?_, ?_⟩
  · exact (C7_archived_as_missing [] [] (.obj [("ok", .bool true),
      ("channel", .obj [("name", .str "general"), ("is_archived", .bool true)])])
      Json.null).2.2.1 harch
  · exact (C7_archived_as_missing [] [] (.obj [("ok", .bool false)])
      Json.null).2.2.1 hmiss

/-- **C8**: on a successful remote call the dispatcher returns one text
content item whose text is exactly `json.dumps` of the decoded remote JSON
result, unmodified. -/
theorem C8_success_passthrough (env : Env) (j t m r : Json)
    (hb : env.brokerResult = Except.ok j) (ht : extract_bot_token j = Except.ok t)
    (hm : extract_team_id j = Except.ok m)
    (hr : ∀ c, env.slackRespond c = Except.ok r) :
    (call_tool env "slack_post_message" pmArgs).2 =
      .contents [mkText (Json.dumps r)] := by
  have h1 : dispatch env ⟨t, m⟩ "slack_post_message" pmArgs =
      simple_call env (.ok ⟨"chat.postMessage", true, [],
        [("channel", .str "C123"), ("text", .str "hi")], t, m⟩) := rfl
  have h2 : simple_call env (.ok ⟨"chat.postMessage", true, [],
      [("channel", .str "C123"), ("text", .str "hi")], t, m⟩) =
      ([⟨"chat.postMessage", true, [], [("channel", .str "C123"), ("text", .str "hi")], t, m⟩],
       .ok [mkText (Json.dumps r)]) := by
    simp only [simple_call, hr]
  have h3 := call_tool_dispatch_ok env j t m "slack_post_message" pmArgs _ _
      hb ht hm (h1.trans h2)
  rw [h3]

/-- Witness for C8: the concrete scenario from the spec — the mock remote API
returns `\x7b"ok": true, "ts": "1.1"\x7d` and the text of the content item is
that exact JSON string. -/
theorem C8_success_passthrough_witness :
    (call_tool envPost "slack_post_message" pmArgs).2 =
      CallOutcome.contents [mkText "\x7b\"ok\": true, \"ts\": \"1.1\"\x7d"] :=
  C8_success_passthrough envPost goodCreds (.str "xoxb-token") (.str "T123")
    (.obj [("ok", .bool true), ("ts", .str "1.1")]) rfl rfl rfl (fun _ => rfl)

/-- **C9**: every `callTool` invocation performs exactly one credential fetch,
as the first outbound call, before any Slack request; the fetch always asks
the broker for a token refresh (`refresh_token=true`); and every Slack request
of the invocation uses the token extracted from the fetch of this same
invocation (the
model carries no state between invocations, so nothing is cached or
reused). -/
theorem C9_fresh_credentials_per_call (env : Env) (j t m : Json) (name : String)
    (args : List (String × Json))
    (hb : env.brokerResult = Except.ok j) (ht : extract_bot_token j = Except.ok t)
    (hm : extract_team_id j = Except.ok m) :
    ∃ rest : List SlackCall,
      (call_tool env name args).1 =
        OutCall.broker (brokerParams env) :: rest.map OutCall.slack ∧
      ("refresh_token", "true") ∈ brokerParams env ∧
      brokerCalls (call_tool env name args).1 = [brokerParams env] ∧
      ∀ c ∈ rest, c.token = t := by
  rcases hd : dispatch env ⟨t, m⟩ name args with ⟨tr, res⟩
  have htok : ∀ c ∈ tr, c.token = t := by
    intro c hc
    exact dispatch_calls_token env ⟨t, m⟩ name args c (by rw [hd]; exact hc)
  cases res with
  | ok items =>
    have h3 := call_tool_dispatch_ok env j t m name args tr items hb ht hm hd
    exact ⟨tr, by rw [h3], by simp [brokerParams],
      by rw [h3]; exact brokerCalls_trace _ _, htok⟩
  | error e =>
    have h3 := call_tool_dispatch_error env j t m name args tr e hb ht hm hd
    exact ⟨tr, by rw [h3], by simp [brokerParams],
      by rw [h3]; exact brokerCalls_trace _ _, htok⟩

/-- Witness for C9 at the healthy environment and the concrete post-message
call. -/
theorem C9_fresh_credentials_per_call_witness :
    ∃ rest : List SlackCall,
      (call_tool envOk "slack_post_message" pmArgs).1 =
        OutCall.broker (brokerParams envOk) :: rest.map OutCall.slack ∧
      ("refresh_token", "true") ∈ brokerParams envOk ∧
      brokerCalls (call_tool envOk "slack_post_message" pmArgs).1 =
        [brokerParams envOk] ∧
      ∀ c ∈ rest, c.token = .str "xoxb-token" :=
  C9_fresh_credentials_per_call envOk goodCreds (.str "xoxb-token") (.str "T123")
    "slack_post_message" pmArgs rfl rfl rfl

/-- Any successful `get_channels` request contains the fixed
`types=public_channel` and `exclude_archived=true` parameters. -/
theorem get_channels_ok_params (cl : SlackClient) (l cur : Json) (c : SlackCall)
    (h : cl.get_channels l cur = .ok c) :
    ("types", "public_channel") ∈ c.qparams ∧ ("exclude_archived", "true") ∈ c.qparams := by
  unfold SlackClient.get_channels at h
  cases hm2 : pyMin200 l with
  | error e => rw [hm2] at h; simp [Bind.bind, Except.bind] at h
  | ok mm =>
    rw [hm2] at h
    simp only [Bind.bind, Except.bind, pure, Except.pure, Except.ok.injEq] at h
    rw [← h]
    by_cases hcur : cur.truthy <;> simp [hcur]

/-- **C10**: every Slack request issued by a `slack_list_channels` invocation
(for any argument mapping and any environment) carries the fixed parameters
`types=public_channel` and `exclude_archived=true`: only public, non-archived
channels are ever requested. -/
theorem C10_fixed_channel_filters (env : Env) (j t m : Json)
    (args : List (String × Json)) (c : SlackCall)
    (hb : env.brokerResult = Except.ok j) (ht : extract_bot_token j = Except.ok t)
    (hm : extract_team_id j = Except.ok m)
    (hc : c ∈ slackCalls (call_tool env "slack_list_channels" args).1) :
    ("types", "public_channel") ∈ c.qparams ∧ ("exclude_archived", "true") ∈ c.qparams := by
  rcases hd : dispatch env ⟨t, m⟩ "slack_list_channels" args with ⟨tr, res⟩
  have hmem : c ∈ tr := by
    cases res with
    | ok items =>
      have h3 := call_tool_dispatch_ok env j t m "slack_list_channels" args tr items
          hb ht hm hd
      rw [h3, slackCalls_trace] at hc
      exact hc
    | error e =>
      have h3 := call_tool_dispatch_error env j t m "slack_list_channels" args tr e
          hb ht hm hd
      rw [h3, slackCalls_trace] at hc
      exact hc
  rw [dispatch_list_channels] at hd
  have hreq := simple_call_mem env _ c (by rw [hd]; exact hmem)
  exact get_channels_ok_params _ _ _ _ hreq

/-- The concrete `conversations.list` request issued by
`call_tool envOk "slack_list_channels" []`. -/
def chListCall : SlackCall :=
  ⟨"conversations.list", false,
   [("types", "public_channel"), ("exclude_archived", "true"),
    ("limit", "100"), ("team_id", "T123")], [], .str "xoxb-token", .str "T123"⟩

/-- Witness for C10: the concrete request issued with no arguments carries
both fixed parameters. -/
theorem C10_fixed_channel_filters_witness :
    ("types", "public_channel") ∈ chListCall.qparams ∧
    ("exclude_archived", "true") ∈ chListCall.qparams :=
  C10_fixed_channel_filters envOk goodCreds (.str "xoxb-token") (.str "T123") []
    chListCall rfl rfl rfl (List.Mem.head _)

end SlackMcp
